import Mathlib

/-!
# Verification of the timeline dashboard (`app.py`)

Shallow embedding of the timeline dashboard application: a Dash app that
renders a scatter-style timeline of dated events grouped by category,
supports uploading a spreadsheet to replace the default dataset, serves a
template spreadsheet, and animates a motivational caption.

Modelling conventions:
* A calendar date is modelled as its ISO string `"YYYY-MM-DD"`; the
  `strftime('%m-%d')` formatting is the suffix after the year.
* A pandas `DataFrame` with the three expected Chinese-labelled columns
  (`日期` date, `事件类型` category, `事件描述` description) is modelled as a
  `List Event` for the renderer, and as a generic `Frame` (column labels plus
  string-valued rows) for the upload/decode path, where frames with arbitrary
  column sets must be representable.
* Raw uploaded/stored spreadsheet bytes are modelled by `XBytes`: either
  `corrupt` (bytes pandas cannot read as a tabular sheet) or `sheet f`
  (bytes that pandas reads back as the frame `f`).  `pd.read_excel` succeeds
  exactly on readable sheets, with no column validation, matching pandas.
* Plotly figure construction (`go.Figure`, `add_trace`, `update_layout`) is
  modelled by the declarative `Trace`/`Figure` records holding the fields the
  source sets.
-/

/-- One event row: `日期` (date), `事件类型` (event type / category),
`事件描述` (event description). -/
structure Event where
  date : String
  eventType : String
  desc : String
deriving DecidableEq

/-- First-seen-order deduplication, the behaviour of
`pandas.Series.unique`: the distinct values of the list in order of first
occurrence. -/
def dedupFirst : List String → List String
  | [] => []
  | x :: xs => x :: (dedupFirst xs).filter (fun y => y != x)

/-- The color string the dict comprehension in `generate_event_types` builds
for the category of ordinal index `i`:
`f"rgba({(i * 70) % 255}, {(i * 120) % 255}, {(i * 180) % 255}, 0.7)"`. -/
def rgbaColor (i : Nat) : String :=
  s!"rgba({(i * 70) % 255}, {(i * 120) % 255}, {(i * 180) % 255}, 0.7)"

/-- `generate_event_types(events_df)`: the unique event types in first-seen
order, the color map (dict keyed by event type, value from the enumeration
index), and the y-position map (dict keyed by event type, value the
enumeration index).  Python dicts built by comprehension over
`enumerate(event_types)` are modelled as association lists. -/
def generate_event_types (events_df : List Event) :
    List String × List (String × String) × List (String × Nat) :=
  let event_types := dedupFirst (events_df.map (fun e => e.eventType))
  let color_map := event_types.enum.map (fun p => (p.2, rgbaColor p.1))
  let y_position_map := event_types.enum.map (fun p => (p.2, p.1))
  (event_types, color_map, y_position_map)

/-- `date.strftime('%m-%d')` on an ISO `"YYYY-MM-DD"` date string: drop the
`"YYYY-"` prefix. -/
def strftimeMMDD (d : String) : String := d.drop 5

/-- One `go.Scatter` trace as configured by `create_timeline`. -/
structure Trace where
  x : List String
  y : List Nat
  mode : String
  text : List String
  textposition : List String
  hovertext : List String
  markerSize : Nat
  markerColor : String
  name : String
deriving DecidableEq

/-- The `go.Figure` produced by `create_timeline`: its traces plus the layout
fields the source sets in `update_layout` / `update_xaxes`. -/
structure Figure where
  traces : List Trace
  title : String
  xaxisTitle : String
  yTickVals : List Nat
  yTickText : List String
  showlegend : Bool
  height : Nat
  xRangeLo : String
  xRangeHi : String
deriving DecidableEq

/-- The body of the `for event_type in event_types` loop of
`create_timeline`: the `go.Scatter` trace added for one event type.  The
`text_position` list built by the inner `for i in range(len(event_data))`
loop is the range-map of the even/odd alternation. -/
def mkTrace (events_df : List Event) (color_map : List (String × String))
    (y_position_map : List (String × Nat)) (event_type : String) : Trace :=
  let event_data := events_df.filter (fun e => e.eventType == event_type)
  { x := event_data.map (fun e => e.date)
    y := List.replicate event_data.length
      ((y_position_map.lookup event_type).getD 0)
    mode := "markers+text"
    text := event_data.map (fun e => strftimeMMDD e.date)
    textposition := (List.range event_data.length).map
      (fun i => if i % 2 = 0 then "bottom center" else "top center")
    hovertext := event_data.map (fun e => e.desc)
    markerSize := 12
    markerColor := (color_map.lookup event_type).getD ""
    name := event_type }

/-- The fallback trace used with `List.getD` when indexing a figure's trace
list in statements; never actually selected under the stated bounds. -/
def dummyTrace : Trace :=
  { x := [], y := [], mode := "", text := [], textposition := [],
    hovertext := [], markerSize := 0, markerColor := "", name := "" }

/-- `create_timeline(events_df)`: one scatter trace per unique event type,
markers at (date, lane), alternating text positions within each category's
sub-sequence, and the fixed layout. -/
def create_timeline (events_df : List Event) : Figure :=
  let p := generate_event_types events_df
  { traces := p.1.map (mkTrace events_df p.2.1 p.2.2)
    title := "我的大事件线 (2023-2024)"
    xaxisTitle := "日期"
    yTickVals := p.2.2.map (fun q => q.2)
    yTickText := p.2.2.map (fun q => q.1)
    showlegend := true
    height := 500
    xRangeLo := "2023-01-01"
    xRangeHi := "2024-12-31" }

/-- A generic data frame: column labels and string-valued rows, the
upload-path view of a pandas `DataFrame` (an uploaded sheet need not carry
the three expected columns). -/
structure Frame where
  cols : List String
  rows : List (List String)
deriving DecidableEq

/-- Raw spreadsheet bytes as pandas sees them: either bytes that are not a
readable tabular sheet (`corrupt`), or bytes that read back as a frame. -/
inductive XBytes where
  | corrupt : XBytes
  | sheet : Frame → XBytes
deriving DecidableEq

/-- `pd.read_excel` on raw bytes: fails exactly on unreadable bytes, and
performs no column validation on a readable sheet. -/
def read_excel : XBytes → Except String Frame
  | XBytes.corrupt => Except.error "ParseError"
  | XBytes.sheet f => Except.ok f

/-- Whether a decode result is a parse failure. -/
def isParseError : Except String Frame → Bool
  | Except.error _ => true
  | Except.ok _ => false

/-- The built-in 3-row sample `DataFrame` constructed inline in
`load_default_events` (identical values to the template table). -/
def builtinSample : Frame :=
  { cols := ["日期", "事件类型", "事件描述"]
    rows := [["2023-01-01", "重要事件", "描述1"],
             ["2023-05-01", "日常任务", "描述2"],
             ["2023-12-25", "节假日", "描述3"]] }

/-- `load_default_events()`: the startup filesystem state is `none` when
`events.xlsx` does not exist and `some b` when it exists with content `b`.
When the file exists the source calls `pd.read_excel('events.xlsx')` with no
exception handling, so the parse result (including failure) propagates;
otherwise the built-in sample is returned. -/
def load_default_events (fs : Option XBytes) : Except String Frame :=
  match fs with
  | some b => read_excel b
  | none => Except.ok builtinSample

/-- The module-level global `default_events_df = load_default_events()`,
evaluated in a startup environment without an `events.xlsx` file. -/
def default_events_df : Frame := builtinSample

/-- A record, as produced per row by `DataFrame.to_dict('records')`: a dict
from column label to value. -/
def Record : Type := List (String × String)

instance : DecidableEq Record := by
  unfold Record
  exact inferInstance

/-- `events_df.to_dict('records')`: one dict per row pairing column labels
with the row's values. -/
def to_records (f : Frame) : List Record :=
  f.rows.map (fun r => f.cols.zip r)

/-- `pd.DataFrame(data)` on a list of records with a uniform key set (the
only shape this app produces): columns are the first record's keys, rows are
the records' values. -/
def from_records (data : List Record) : Frame :=
  { cols := ((data.head?).map (fun r => r.map (fun q => q.1))).getD []
    rows := data.map (fun r => r.map (fun q => q.2)) }

/-- `store_file(contents, filename)`: the upload callback.  `contents` is
`none` when no upload happened, else the decoded base64 payload.  On a
successful `pd.read_excel` the parsed records are stored; on any parse
exception the default data's records are stored. -/
def store_file (contents : Option XBytes) : Option (List Record) :=
  match contents with
  | some decoded =>
      match read_excel decoded with
      | Except.ok events_df => some (to_records events_df)
      | Except.error _ => some (to_records default_events_df)
  | none => none

/-- The event table `update_graph` renders from the `file-store` state (the
Event Store's `GetCurrent`): the default table when the store holds no data,
else the frame rebuilt from the stored records. -/
def get_current (data : Option (List Record)) : Frame :=
  match data with
  | none => default_events_df
  | some d => from_records d

/-- The fixed 3-row template `DataFrame` built inside
`create_excel_template`. -/
def templateDf : Frame :=
  { cols := ["日期", "事件类型", "事件描述"]
    rows := [["2023-01-01", "重要事件", "描述1"],
             ["2023-05-01", "日常任务", "描述2"],
             ["2023-12-25", "节假日", "描述3"]] }

/-- `df.to_excel(writer, index=False, sheet_name='Sheet1')` into an in-memory
buffer: produces spreadsheet bytes that read back as exactly the written
frame (the pandas/openpyxl codec modelled at the sheet level). -/
def to_excel_bytes (f : Frame) : XBytes := XBytes.sheet f

/-- `create_excel_template()`: the in-memory spreadsheet bytes of the fixed
3-row template table. -/
def create_excel_template : XBytes := to_excel_bytes templateDf

/-- One `html.Span` of the caption: a single character with its class and
its `--index` style value. -/
structure SpanEl where
  word : String
  className : String
  styleIndex : Nat
deriving DecidableEq

/-- One `html.Div` line of the caption: its spans, class, and
`animationDelay` style value. -/
structure LineEl where
  spans : List SpanEl
  className : String
  animationDelay : String
deriving DecidableEq

/-- The fixed six-sentence script of `update_motivational_text`. -/
def motivationalText : List String :=
  ["2024年，岁月匆匆，回望过往，心中涌动着感激与希望。",
   "每一滴汗水，每一段努力，都在岁月的河流中留下痕迹。",
   "曾经的坚持与拼搏，化作了今天的坚韧与信心。",
   "感谢自己，感谢每一个奋斗的瞬间，感谢所有支持的人。",
   "未来的路充满未知，但我已准备好迎接一切挑战。",
   "每一步都在创造新的故事，属于我，属于我们的篇章。"]

/-- `update_motivational_text(n_intervals)`: per sentence `i`, one line whose
spans are the sentence's characters `j` with `--index` equal to
`i * len(sentence) + j` and `animationDelay` equal to `f'{i * 2}s'`; the
completion check `n_intervals >= len(text) * 2` returns `all_words` in both
branches. -/
def update_motivational_text (n_intervals : Nat) : List LineEl :=
  let text := motivationalText
  let all_words := text.enum.map (fun p =>
    { spans := p.2.toList.enum.map (fun q =>
        { word := String.singleton q.2
          className := "motivational-word"
          styleIndex := p.1 * p.2.length + q.1 })
      className := "motivational-line"
      animationDelay := toString (p.1 * 2) ++ "s" })
  if text.length * 2 ≤ n_intervals then all_words else all_words

/-- The worked example table of §8 of the specification:
`[(2023-01-01, "A", "d1"), (2023-05-01, "B", "d2"), (2023-12-25, "A", "d3")]`. -/
def exampleTable : List Event :=
  [⟨"2023-01-01", "A", "d1"⟩, ⟨"2023-05-01", "B", "d2"⟩, ⟨"2023-12-25", "A", "d3"⟩]

/-! ## Helper lemmas -/

theorem mem_dedupFirst (a : String) (l : List String) :
    a ∈ dedupFirst l ↔ a ∈ l := by
  induction l with
  | nil => simp [dedupFirst]
  | cons x xs ih =>
    simp only [dedupFirst, List.mem_cons, List.mem_filter, ih, bne_iff_ne, ne_eq]
    constructor
    · rintro (rfl | ⟨h, _⟩)
      · exact Or.inl rfl
      · exact Or.inr h
    · rintro (rfl | h)
      · exact Or.inl rfl
      · by_cases hx : a = x
        · exact Or.inl hx
        · exact Or.inr ⟨h, hx⟩

theorem dedupFirst_nodup (l : List String) : (dedupFirst l).Nodup := by
  induction l with
  | nil => simp [dedupFirst]
  | cons x xs ih =>
    refine List.nodup_cons.mpr ⟨?_, List.Nodup.filter _ ih⟩
    intro hmem
    have hbne := (List.mem_filter.mp hmem).2
    simp [bne_iff_ne] at hbne

theorem lookup_enumFrom_map {β : Type} (g : Nat → β) :
    ∀ (l : List String) (n j : Nat) (h : j < l.length), l.Nodup →
      ((l.enumFrom n).map (fun p => (p.2, g p.1))).lookup (l.get ⟨j, h⟩)
        = some (g (n + j)) := by
  intro l
  induction l with
  | nil => intro n j h; exact absurd h (by simp)
  | cons x xs ih =>
    intro n j h hnd
    cases j with
    | zero =>
      simp [List.enumFrom, List.lookup]
    | succ j =>
      have hj : j < xs.length := by
        have h2 := h
        rw [List.length_cons] at h2
        omega
      have hx : x ∉ xs := (List.nodup_cons.mp hnd).1
      have hne : (xs.get ⟨j, hj⟩ == x) = false := by
        refine beq_eq_false_iff_ne.mpr ?_
        intro heq
        refine hx ?_
        rw [← heq, List.get_eq_getElem]
        exact List.getElem_mem hj
      have hrec := ih (n + 1) j hj (List.nodup_cons.mp hnd).2
      simp only [List.enumFrom, List.map_cons, List.get_cons_succ, List.lookup,
        hne]
      rw [hrec]
      have harith : n + 1 + j = n + (j + 1) := by omega
      rw [harith]

theorem lookup_enum_map {β : Type} (g : Nat → β) (l : List String) (j : Nat)
    (h : j < l.length) (hnd : l.Nodup) :
    ((l.enum.map (fun p => (p.2, g p.1))).lookup (l.get ⟨j, h⟩)) = some (g j) := by
  have := lookup_enumFrom_map g l 0 j h hnd
  simpa [List.enum] using this

theorem sum_map_boolIte_zero (a : String) :
    ∀ (l : List String), a ∉ l →
      (l.map (fun c => if a == c then 1 else 0)).sum = 0 := by
  intro l
  induction l with
  | nil => intro _; simp
  | cons x xs ih =>
    intro hna
    have hx : ¬a = x := fun hax => hna (hax ▸ List.mem_cons_self x xs)
    have hxs : a ∉ xs := fun hin => hna (List.mem_cons_of_mem x hin)
    rw [List.map_cons, List.sum_cons, ih hxs]
    simp [hx]

theorem sum_map_boolIte_one (a : String) :
    ∀ (l : List String), l.Nodup → a ∈ l →
      (l.map (fun c => if a == c then 1 else 0)).sum = 1 := by
  intro l
  induction l with
  | nil => intro _ h; simp at h
  | cons x xs ih =>
    intro hnd hmem
    by_cases hax : a = x
    · subst hax
      have hx : a ∉ xs := (List.nodup_cons.mp hnd).1
      rw [List.map_cons, List.sum_cons, sum_map_boolIte_zero a xs hx]
      simp
    · have hin : a ∈ xs := by
        rcases List.mem_cons.mp hmem with h | h
        · exact absurd h hax
        · exact h
      rw [List.map_cons, List.sum_cons, ih (List.nodup_cons.mp hnd).2 hin]
      simp [hax]

theorem sum_map_add_split {α : Type} (l : List α) (f g : α → Nat) :
    (l.map (fun c => f c + g c)).sum = (l.map f).sum + (l.map g).sum := by
  induction l with
  | nil => simp
  | cons x xs ih => simp [ih]; omega

theorem length_eq_sum_filter :
    ∀ (df : List Event) (l : List String), l.Nodup →
      (∀ e ∈ df, e.eventType ∈ l) →
      (l.map (fun c => (df.filter (fun e => e.eventType == c)).length)).sum
        = df.length := by
  intro df
  induction df with
  | nil => intro l _ _; simp
  | cons e rest ih =>
    intro l hnd hall
    have he : e.eventType ∈ l := hall e (List.mem_cons_self e rest)
    have hrest : ∀ x ∈ rest, x.eventType ∈ l := fun x hx =>
      hall x (List.mem_cons_of_mem e hx)
    have step : ∀ c : String,
        ((e :: rest).filter (fun x => x.eventType == c)).length
          = (if e.eventType == c then 1 else 0)
            + (rest.filter (fun x => x.eventType == c)).length := by
      intro c
      by_cases hc : (e.eventType == c) = true
      · rw [List.filter_cons, if_pos hc, List.length_cons, if_pos hc]
        omega
      · rw [List.filter_cons, if_neg hc, if_neg hc]
        omega
    simp only [step]
    rw [sum_map_add_split l (fun c => if e.eventType == c then 1 else 0)
      (fun c => (rest.filter (fun x => x.eventType == c)).length)]
    rw [sum_map_boolIte_one e.eventType l hnd he, ih l hnd hrest]
    rw [List.length_cons]
    omega

theorem countP_beq_zero (a : String) :
    ∀ (l : List String), a ∉ l → l.countP (fun c => c == a) = 0 := by
  intro l
  induction l with
  | nil => intro _; simp
  | cons x xs ih =>
    intro hna
    have hx : ¬x = a := fun hax => hna (hax ▸ List.mem_cons_self x xs)
    have hxs : a ∉ xs := fun hin => hna (List.mem_cons_of_mem x hin)
    rw [List.countP_cons, ih hxs]
    simp [hx]

theorem countP_beq_one (a : String) :
    ∀ (l : List String), l.Nodup → a ∈ l →
      l.countP (fun c => c == a) = 1 := by
  intro l
  induction l with
  | nil => intro _ h; simp at h
  | cons x xs ih =>
    intro hnd hmem
    by_cases hax : x = a
    · subst hax
      have hx : x ∉ xs := (List.nodup_cons.mp hnd).1
      rw [List.countP_cons, countP_beq_zero x xs hx]
      simp
    · have hin : a ∈ xs := by
        rcases List.mem_cons.mp hmem with h | h
        · exact absurd h.symm hax
        · exact h
      rw [List.countP_cons, ih (List.nodup_cons.mp hnd).2 hin]
      simp [hax]

/-- The unique event-type list `create_timeline` works from. -/
def eventTypesOf (df : List Event) : List String :=
  dedupFirst (df.map (fun e => e.eventType))

theorem create_timeline_traces (df : List Event) :
    (create_timeline df).traces
      = (eventTypesOf df).map
          (mkTrace df (generate_event_types df).2.1 (generate_event_types df).2.2) := by
  rfl

theorem create_timeline_traces_length (df : List Event) :
    (create_timeline df).traces.length = (eventTypesOf df).length := by
  rw [create_timeline_traces, List.length_map]

theorem create_timeline_traces_getD (df : List Event) (j : Nat)
    (hj : j < (eventTypesOf df).length) :
    (create_timeline df).traces.getD j dummyTrace
      = mkTrace df (generate_event_types df).2.1 (generate_event_types df).2.2
          ((eventTypesOf df).get ⟨j, hj⟩) := by
  rw [create_timeline_traces, List.getD_eq_getElem?_getD, List.getElem?_map,
    List.getElem?_eq_getElem hj]
  simp

theorem yMap_lookup (df : List Event) (j : Nat)
    (hj : j < (eventTypesOf df).length) :
    ((generate_event_types df).2.2.lookup ((eventTypesOf df)[j]))
      = some j := by
  have h := lookup_enum_map (fun i => i) (eventTypesOf df) j hj
    (dedupFirst_nodup _)
  simpa [generate_event_types, eventTypesOf, List.get_eq_getElem] using h

theorem colorMap_lookup (df : List Event) (j : Nat)
    (hj : j < (eventTypesOf df).length) :
    ((generate_event_types df).2.1.lookup ((eventTypesOf df)[j]))
      = some (rgbaColor j) := by
  have h := lookup_enum_map rgbaColor (eventTypesOf df) j hj
    (dedupFirst_nodup _)
  simpa [generate_event_types, eventTypesOf, List.get_eq_getElem] using h

theorem enum_map_fst_eq_range (l : List String) :
    l.enum.map (fun p => p.1) = List.range l.length := by
  simp

/-! ## Claim theorems -/

/-- C1: For every Event Table, `create_timeline` produces exactly one marker
series per distinct category value, the distinct categories taken in
first-seen order; the series at position `j` is named after the `j`-th
first-seen category and sits on lane `j` (its `y` column is the lane index
`j` repeated once per marker), so the lanes are exactly `{0, ..., N-1}` with
the first-seen category on lane 0. -/
theorem render_one_series_per_category_in_lane_order (df : List Event) :
    ((create_timeline df).traces.length = (eventTypesOf df).length)
    ∧ (∀ j, j < (create_timeline df).traces.length →
        ((create_timeline df).traces.getD j dummyTrace).name
            = (eventTypesOf df).getD j ""
        ∧ ((create_timeline df).traces.getD j dummyTrace).y
            = List.replicate
                ((create_timeline df).traces.getD j dummyTrace).x.length j)
    ∧ (create_timeline df).yTickVals = List.range (eventTypesOf df).length := by
  refine ⟨create_timeline_traces_length df, ?_, ?_⟩
  · intro j hjt
    have hj : j < (eventTypesOf df).length := by
      rwa [create_timeline_traces_length] at hjt
    rw [create_timeline_traces_getD df j hj]
    constructor
    · simp [mkTrace, List.getD_eq_getElem?_getD, List.getElem?_eq_getElem hj]
    · simp [mkTrace, yMap_lookup df j hj]
  · show (generate_event_types df).2.2.map (fun q => q.2)
        = List.range (eventTypesOf df).length
    simp only [generate_event_types, eventTypesOf, List.map_map]
    have : ((fun q : String × Nat => q.2) ∘ fun p : Nat × String => (p.2, p.1))
        = fun p : Nat × String => p.1 := rfl
    rw [this, enum_map_fst_eq_range]

/-- Witness for C1 at the worked example table: two series; the second is
named `"B"` and occupies lane 1. -/
theorem render_one_series_per_category_in_lane_order_witness :
    1 < (create_timeline exampleTable).traces.length
    ∧ ((create_timeline exampleTable).traces.getD 1 dummyTrace).name
        = (eventTypesOf exampleTable).getD 1 ""
    ∧ ((create_timeline exampleTable).traces.getD 1 dummyTrace).y
        = List.replicate
            ((create_timeline exampleTable).traces.getD 1 dummyTrace).x.length
            1 := by
  refine ⟨by decide, ?_, ?_⟩
  · exact ((render_one_series_per_category_in_lane_order exampleTable).2.1 1
      (by decide)).1
  · exact ((render_one_series_per_category_in_lane_order exampleTable).2.1 1
      (by decide)).2

/-- C2: Within each category's series, the label position of the marker at
partition-local index `i` is `"bottom center"` when `i` is even and
`"top center"` when `i` is odd, starting with bottom at index 0; the index
is local to the category's own sub-sequence, not the global row position. -/
theorem label_placement_alternates (df : List Event) (j i : Nat)
    (hj : j < (create_timeline df).traces.length)
    (hi : i < ((create_timeline df).traces.getD j dummyTrace).textposition.length) :
    ((create_timeline df).traces.getD j dummyTrace).textposition.getD i ""
      = if i % 2 = 0 then "bottom center" else "top center" := by
  have hj' : j < (eventTypesOf df).length := by
    rwa [create_timeline_traces_length] at hj
  rw [create_timeline_traces_getD df j hj'] at hi ⊢
  simp only [mkTrace] at hi ⊢
  have hn : i < (df.filter
      (fun e => e.eventType == (eventTypesOf df).get ⟨j, hj'⟩)).length := by
    simpa using hi
  rw [List.getD_eq_getElem?_getD, List.getElem?_map, List.getElem?_range hn]
  simp

/-- Witness for C2 at the worked example table: in the `"A"` partition
(series 0, two events), the event at partition-local index 1 is labelled on
top, although it is the third row of the table. -/
theorem label_placement_alternates_witness :
    0 < (create_timeline exampleTable).traces.length
    ∧ 1 < ((create_timeline exampleTable).traces.getD 0
        dummyTrace).textposition.length
    ∧ ((create_timeline exampleTable).traces.getD 0
        dummyTrace).textposition.getD 1 "" = "top center" := by
  refine ⟨by decide, by decide, ?_⟩
  have h := label_placement_alternates exampleTable 0 1 (by decide) (by decide)
  simpa using h

/-- C3: The marker color of the series at ordinal index `j` is the fixed
arithmetic hash `rgba((j*70) mod 255, (j*120) mod 255, (j*180) mod 255, 0.7)`;
it depends only on the category's ordinal index in first-seen order. -/
theorem series_color_is_index_hash (df : List Event) (j : Nat)
    (hj : j < (create_timeline df).traces.length) :
    ((create_timeline df).traces.getD j dummyTrace).markerColor
      = s!"rgba({(j * 70) % 255}, {(j * 120) % 255}, {(j * 180) % 255}, 0.7)" := by
  have hj' : j < (eventTypesOf df).length := by
    rwa [create_timeline_traces_length] at hj
  rw [create_timeline_traces_getD df j hj']
  simp [mkTrace, colorMap_lookup df j hj', rgbaColor]

/-- Witness for C3 at the worked example table: the second series (index 1)
is colored `rgba(70, 120, 180, 0.7)`. -/
theorem series_color_is_index_hash_witness :
    1 < (create_timeline exampleTable).traces.length
    ∧ ((create_timeline exampleTable).traces.getD 1 dummyTrace).markerColor
        = "rgba(70, 120, 180, 0.7)" := by
  refine ⟨by decide, ?_⟩
  rw [series_color_is_index_hash exampleTable 1 (by decide)]
  decide

/-- C9: `create_timeline` is a total function, and applied to the empty event
table it returns a chart description containing zero marker series (and
correspondingly empty lane ticks). -/
theorem render_empty_table_zero_series :
    (create_timeline ([] : List Event)).traces = []
    ∧ (create_timeline ([] : List Event)).yTickVals = []
    ∧ (create_timeline ([] : List Event)).yTickText = [] :=
  ⟨rfl, rfl, rfl⟩

/-- C10: the per-category series partition the table's rows: the marker
counts of the series sum to the number of rows, each row's category names
exactly one series, and the series at position `j` carries exactly the dates
of the rows of its category, in original relative order — no row is dropped
or duplicated. -/
theorem render_series_partition_rows (df : List Event) :
    (((create_timeline df).traces.map (fun tr => tr.x.length)).sum = df.length)
    ∧ (∀ e ∈ df, (create_timeline df).traces.countP
        (fun tr => tr.name == e.eventType) = 1)
    ∧ (∀ j, j < (create_timeline df).traces.length →
        ((create_timeline df).traces.getD j dummyTrace).x
          = (df.filter (fun e => e.eventType
              == ((create_timeline df).traces.getD j dummyTrace).name)).map
            (fun e => e.date)) := by
  refine ⟨?_, ?_, ?_⟩
  · rw [create_timeline_traces, List.map_map]
    have hcomp : ((fun tr : Trace => tr.x.length)
          ∘ mkTrace df (generate_event_types df).2.1 (generate_event_types df).2.2)
        = fun c => (df.filter (fun e => e.eventType == c)).length := by
      funext c
      simp [mkTrace]
    rw [hcomp]
    exact length_eq_sum_filter df (eventTypesOf df) (dedupFirst_nodup _)
      (fun e he => (mem_dedupFirst _ _).mpr (List.mem_map_of_mem _ he))
  · intro e he
    rw [create_timeline_traces, List.countP_map]
    have hcomp : ((fun tr : Trace => tr.name == e.eventType)
          ∘ mkTrace df (generate_event_types df).2.1 (generate_event_types df).2.2)
        = fun c => c == e.eventType := by
      funext c
      simp [mkTrace]
    rw [hcomp]
    exact countP_beq_one e.eventType (eventTypesOf df) (dedupFirst_nodup _)
      ((mem_dedupFirst _ _).mpr (List.mem_map_of_mem _ he))
  · intro j hjt
    have hj : j < (eventTypesOf df).length := by
      rwa [create_timeline_traces_length] at hjt
    rw [create_timeline_traces_getD df j hj]
    simp [mkTrace]

/-- Witness for C10 at the worked example table: the three rows are spread
over the series (2 + 1 markers), and the category of the first row names
exactly one series. -/
theorem render_series_partition_rows_witness :
    ((create_timeline exampleTable).traces.map (fun tr => tr.x.length)).sum = 3
    ∧ (create_timeline exampleTable).traces.countP
        (fun tr => tr.name == (⟨"2023-01-01", "A", "d1"⟩ : Event).eventType)
        = 1 := by
  constructor
  · have h := (render_series_partition_rows exampleTable).1
    simpa [exampleTable] using h
  · exact (render_series_partition_rows exampleTable).2.1
      ⟨"2023-01-01", "A", "d1"⟩ (by decide)

/-- C6: `update_motivational_text` is deterministic in its tick argument, and
returns the same output for every tick at or above the completion threshold
`len(text) * 2 = 12` as for every tick below it: the two branches of the
completion check are identical. -/
theorem caption_output_tick_independent (t t1 t2 : Nat) (_h1 : 12 ≤ t1)
    (_h2 : t2 < 12) :
    update_motivational_text t = update_motivational_text t
    ∧ update_motivational_text t1 = update_motivational_text t2 := by
  refine ⟨rfl, ?_⟩
  simp [update_motivational_text, ite_self]

/-- Witness for C6: tick 12 (at threshold) and tick 0 (below threshold)
produce the same caption. -/
theorem caption_output_tick_independent_witness :
    12 ≤ 12 ∧ 0 < 12
    ∧ update_motivational_text 12 = update_motivational_text 0 :=
  ⟨by decide, by decide,
    (caption_output_tick_independent 0 12 0 (by decide) (by decide)).2⟩

/-- C5: decoding the bytes produced by the template encoder yields the fixed
3-row template table: the same columns and field values (dates, categories,
descriptions), in row order. -/
theorem template_roundtrip :
    read_excel create_excel_template = Except.ok templateDf
    ∧ templateDf.rows.length = 3
    ∧ templateDf.cols = ["日期", "事件类型", "事件描述"]
    ∧ templateDf.rows = [["2023-01-01", "重要事件", "描述1"],
        ["2023-05-01", "日常任务", "描述2"],
        ["2023-12-25", "节假日", "描述3"]] :=
  ⟨rfl, rfl, rfl, rfl⟩

/-- Counterexample to C4 as stated: with a previously uploaded table active
(here a one-row table), a failed decode does not leave the active table
unchanged — the store is overwritten with the default table's records, so
`get_current` changes. -/
theorem failed_decode_changes_prior_upload :
    get_current (store_file (some XBytes.corrupt))
      ≠ get_current (some (to_records
          (⟨["日期", "事件类型", "事件描述"],
            [["2024-02-02", "会议", "x"]]⟩ : Frame))) := by
  decide

/-- C4 amended: after a failed decode the upload handler stores the default
table's records, so the active table equals the *default* table afterwards; it
equals its pre-call value only when the default table was already active. -/
theorem failed_decode_falls_back_to_default (b : XBytes) (e : String)
    (he : read_excel b = Except.error e) :
    get_current (store_file (some b)) = default_events_df := by
  cases b with
  | corrupt => decide
  | sheet f => exact absurd he (by simp [read_excel])

/-- Witness for the amended C4: corrupt bytes fail to decode and the active
table afterwards is the default table. -/
theorem failed_decode_falls_back_to_default_witness :
    read_excel XBytes.corrupt = Except.error "ParseError"
    ∧ get_current (store_file (some XBytes.corrupt)) = default_events_df :=
  ⟨rfl, failed_decode_falls_back_to_default XBytes.corrupt "ParseError" rfl⟩

/-- Counterexample to C7 as stated: a payload that parses as a tabular sheet
but is missing all three expected columns (its only column is `"a"`) does not
signal a parse error — `read_excel` returns the table and the handler stores
it, with no fallback to the default dataset. -/
theorem missing_columns_sheet_decodes_successfully :
    "日期" ∉ (⟨["a"], [["x"]]⟩ : Frame).cols
    ∧ read_excel (XBytes.sheet ⟨["a"], [["x"]]⟩)
        = Except.ok (⟨["a"], [["x"]]⟩ : Frame)
    ∧ store_file (some (XBytes.sheet ⟨["a"], [["x"]]⟩))
        = some (to_records (⟨["a"], [["x"]]⟩ : Frame))
    ∧ store_file (some (XBytes.sheet ⟨["a"], [["x"]]⟩))
        ≠ some (to_records default_events_df) :=
  ⟨by decide, rfl, rfl, by decide⟩

/-- C7 amended: decode signals a parse failure exactly on unreadable bytes; a
readable tabular sheet decodes successfully even when expected columns are
missing and its records are stored as-is, and only for unreadable bytes does
the handler fall back to the default dataset. -/
theorem parse_error_only_for_unreadable_bytes (b : XBytes) :
    (isParseError (read_excel b) = true ↔ b = XBytes.corrupt)
    ∧ (∀ f, b = XBytes.sheet f → store_file (some b) = some (to_records f))
    ∧ (b = XBytes.corrupt
        → store_file (some b) = some (to_records default_events_df)) := by
  refine ⟨?_, ?_, ?_⟩
  · cases b <;> simp [read_excel, isParseError]
  · rintro f rfl
    rfl
  · rintro rfl
    rfl

/-- Witness for the amended C7: unreadable bytes signal a parse failure and
the handler stores the default dataset's records. -/
theorem parse_error_only_for_unreadable_bytes_witness :
    isParseError (read_excel XBytes.corrupt) = true
    ∧ store_file (some XBytes.corrupt) = some (to_records default_events_df) :=
  ⟨(parse_error_only_for_unreadable_bytes XBytes.corrupt).1.mpr rfl,
   (parse_error_only_for_unreadable_bytes XBytes.corrupt).2.2 rfl⟩

/-- Counterexample to C8 as stated: in a startup environment where the
default-dataset file exists but its bytes are unreadable,
`load_default_events` propagates the parse failure instead of returning a
table (the `os.path.exists` guard only covers absence). -/
theorem load_default_propagates_corrupt_file :
    isParseError (load_default_events (some XBytes.corrupt)) = true := rfl

/-- C8 amended: `load_default_events` substitutes the built-in 3-row sample
exactly when the external default file is absent; when the file is present
its parse result propagates — a readable sheet is returned as-is, and
unreadable bytes propagate the failure, so startup can fail for a
present-but-corrupt file. -/
theorem load_default_fallback_only_when_absent (fs : Option XBytes) :
    (fs = none → load_default_events fs = Except.ok builtinSample)
    ∧ (∀ f, fs = some (XBytes.sheet f) → load_default_events fs = Except.ok f)
    ∧ (fs = some XBytes.corrupt
        → isParseError (load_default_events fs) = true) := by
  refine ⟨?_, ?_, ?_⟩
  · rintro rfl
    rfl
  · rintro f rfl
    rfl
  · rintro rfl
    rfl

/-- Witness for the amended C8: with the file absent the built-in sample is
returned; with a corrupt file present the failure propagates. -/
theorem load_default_fallback_only_when_absent_witness :
    load_default_events none = Except.ok builtinSample
    ∧ isParseError (load_default_events (some XBytes.corrupt)) = true :=
  ⟨(load_default_fallback_only_when_absent none).1 rfl,
   (load_default_fallback_only_when_absent (some XBytes.corrupt)).2.2 rfl⟩
